import Mathlib

/-!
Verification development for the climate-rights visualization repository.

The repository is a set of browser front-ends; the parts embedded here are
the wind particle animator (WindAnimator in the projection-map sources),
the case/disaster/raster filtering and toggling logic of the projection-map
viewer, the chat widget, the knowledge-graph year filter, and the forensic
dashboard filters.

Modelling conventions used throughout:
* JavaScript numbers are modelled as exact rationals (ℚ) or integers; the
  floating-point value NaN is modelled with Option (none = NaN), and
  fallible lookups return Option.
* JavaScript strings are Lean Strings; the string primitives the code uses
  (trim, toLowerCase, includes, replace) are defined below over the
  character list so that concrete instances reduce by kernel evaluation.
* Asynchronous fetches are modelled by passing the fetch outcome as an
  explicit argument to the state-transition function; the function returns
  the state after the promise chain (then/catch) has settled.
-/

/-! ## JavaScript string primitives -/

/-- Model of JavaScript String.prototype.toLowerCase (ASCII range, which is
all the code relies on: keywords such as Emission and Fire). -/
def jsToLower (s : String) : String :=
  String.mk (s.data.map Char.toLower)

/-- Model of JavaScript String.prototype.trim: strip whitespace from both
ends of the string. -/
def jsTrim (s : String) : String :=
  String.mk (((s.data.dropWhile Char.isWhitespace).reverse.dropWhile
    Char.isWhitespace).reverse)

/-- Model of JavaScript String.prototype.includes: substring containment. -/
def jsIncludes (s pat : String) : Bool :=
  decide (pat.data <:+: s.data)

/-- One step of replace-all on character lists: if the (nonempty) pattern is
a prefix of the remaining text, emit the replacement and skip the pattern,
otherwise keep one character.  Models the global regex replace
text.replace(tag, rep) used on the raster JSON bodies. -/
def jsReplaceAllAux (pat rep : List Char) : List Char → List Char
  | [] => []
  | c :: rest =>
    if pat.isPrefixOf (c :: rest) && !pat.isEmpty then
      rep ++ jsReplaceAllAux pat rep (rest.drop (pat.length - 1))
    else
      c :: jsReplaceAllAux pat rep rest
termination_by l => l.length
decreasing_by
  · simp only [List.length_drop, List.length_cons]
    omega
  · simp only [List.length_cons]
    omega

/-- Model of JavaScript text.replace(new global regex of a literal, rep). -/
def jsReplaceAll (s pat rep : String) : String :=
  String.mk (jsReplaceAllAux pat.data rep.data s.data)

/-- Truthiness of a nullable JavaScript string: null and the empty string
are falsy, every other string is truthy. -/
def jsTruthy : Option String → Bool
  | none => false
  | some s => !s.isEmpty

/-! ## Wind particle animator (WindAnimator)

Source: the WindAnimator class of the projection-map sources
(createField, distort, createParticles, randomizeParticle, animate).
Constants from the source: MAX_PARTICLE_AGE = 90, NULL_WIND_VECTOR =
[NaN, NaN, null], and the magnitude cutoff 15.

The projection is abstracted as two functions: the forward projection
(lon, lat) to screen coordinates, and invert from screen coordinates back
to (lon, lat); both return none where the library returns null (or a
non-finite coordinate, which cannot arise over ℚ). -/

/-- Header of the wind grid JSON: windData[0].header in createField. -/
structure GridHeader where
  nx : ℕ
  ny : ℕ
  lo1 : ℚ
  la1 : ℚ
  dx : ℚ
  dy : ℚ

def MAX_PARTICLE_AGE : ℕ := 90

/-- Lookup in the u/v sample arrays.  The JS arrays hold numbers and nulls;
an index past the end yields undefined, which (like null here) leads the
field to the null wind vector, through a NaN magnitude in JS, so the
embedding collapses both into none. -/
def sampleAt (l : List (Option ℚ)) (i : ℕ) : Option ℚ :=
  (l[i]?).getD none

/-- The interpolate closure of createField: map (lon, lat) to the grid cell
and return the (u, v) sample when the cell is inside the nx-by-ny grid and
both samples are non-null. -/
def interpolate (h : GridHeader) (uData vData : List (Option ℚ))
    (lon lat : ℚ) : Option (ℚ × ℚ) :=
  let gridLon := if lon < h.lo1 then lon + 360 else lon
  let i : ℤ := ⌊(gridLon - h.lo1) / h.dx⌋
  let j : ℤ := ⌊(h.la1 - lat) / h.dy⌋
  if 0 ≤ i ∧ i < (h.nx : ℤ) ∧ 0 ≤ j ∧ j < (h.ny : ℤ) then
    match sampleAt uData (j * h.nx + i).toNat,
          sampleAt vData (j * h.nx + i).toNat with
    | some u, some v => some (u, v)
    | _, _ => none
  else none

/-- WindAnimator.distort: scale the wind vector and push it through the
local distortion of the projection, estimated by finite differences with
epsilon = 1e-6.  A null projected point leaves the corresponding
difference entries at 0, as in the source. -/
def distort (project : ℚ → ℚ → Option (ℚ × ℚ))
    (lon lat x y scale : ℚ) (wind : ℚ × ℚ) : ℚ × ℚ :=
  let u := wind.1 * scale
  let v := wind.2 * scale
  let eps : ℚ := 1 / 1000000
  let d01 : ℚ × ℚ :=
    match project (lon + eps) lat with
    | some p => ((p.1 - x) / eps, (p.2 - y) / eps)
    | none => (0, 0)
  let d23 : ℚ × ℚ :=
    match project lon (lat + eps) with
    | some p => ((p.1 - x) / eps, (p.2 - y) / eps)
    | none => (0, 0)
  (d01.1 * u + d23.1 * v, d01.2 * u + d23.2 * v)

/-- Squared euclidean magnitude of a wind vector.  The source computes
mag = Math.sqrt of this and compares mag with 15; over ℚ we carry the
square and compare with 225, which is equivalent since the square root is
strictly monotone on nonnegative reals. -/
def magSq (w : ℚ × ℚ) : ℚ :=
  w.1 * w.1 + w.2 * w.2

/-- The field closure of WindAnimator.createField: invert the screen point,
interpolate the wind grid, distort, and null out anything whose magnitude
exceeds 15 (the source also nulls a non-finite magnitude, which cannot
arise over exact rationals).  none stands for NULL_WIND_VECTOR
= [NaN, NaN, null]; a some result stands for [d0, d1, mag].
velocityScale is VELOCITY_SCALE * projection.scale(). -/
def windField (invert project : ℚ → ℚ → Option (ℚ × ℚ))
    (velocityScale : ℚ) (h : GridHeader) (uData vData : List (Option ℚ))
    (x y : ℚ) : Option (ℚ × ℚ) :=
  match invert x y with
  | none => none
  | some coords =>
    match interpolate h uData vData coords.1 coords.2 with
    | none => none
    | some wind =>
      let distorted := distort project coords.1 coords.2 x y velocityScale wind
      if magSq distorted > 225 then none
      else some distorted

/-- A wind particle: position, pending move (xt/yt, none when cleared) and
age. -/
structure Particle where
  x : ℚ
  y : ℚ
  xt : Option (ℚ × ℚ)
  age : ℕ
deriving DecidableEq

/-- One frame of the evolve closure of WindAnimator.animate for one
particle, translated statement by statement: clear the pending move;
respawn (at the position rx, ry that randomizeParticle would pick) when the
age exceeds MAX_PARTICLE_AGE; sample the field; kill (age := 90) on a NaN
sample or a destination that does not invert onto the globe, otherwise
record the pending move; finally increment the age. -/
def evolveParticle (field : ℚ → ℚ → Option (ℚ × ℚ))
    (invertOk : ℚ → ℚ → Bool) (rx ry : ℚ) (p : Particle) : Particle :=
  let p1 : Particle := { p with xt := none }
  let p2 : Particle :=
    if MAX_PARTICLE_AGE < p1.age then { p1 with x := rx, y := ry, age := 0 }
    else p1
  let p3 : Particle :=
    match field p2.x p2.y with
    | none => { p2 with age := MAX_PARTICLE_AGE }
    | some uv =>
      let xt := p2.x + uv.1
      let yt := p2.y + uv.2
      if invertOk xt yt then { p2 with xt := some (xt, yt) }
      else { p2 with age := MAX_PARTICLE_AGE }
  { p3 with age := p3.age + 1 }

/-- The per-frame particle update as the specification narrates it: the
pending move is cleared; a particle older than 90 is respawned at a fresh
random position with age 0; then either the field sample is the null
vector and the particle dies with age 90, or the displaced position fails
to invert and it dies the same way, or the pending move becomes exactly
(x + u, y + v); in every case the age then grows by exactly one. -/
def evolveParticleSpec (field : ℚ → ℚ → Option (ℚ × ℚ))
    (invertOk : ℚ → ℚ → Bool) (rx ry : ℚ) (p : Particle) : Particle :=
  let cleared : Particle := { p with xt := none }
  let q : Particle :=
    if cleared.age > 90 then { cleared with x := rx, y := ry, age := 0 }
    else cleared
  match field q.x q.y with
  | none => { q with age := 90 + 1 }
  | some uv =>
    if invertOk (q.x + uv.1) (q.y + uv.2) then
      { q with xt := some (q.x + uv.1, q.y + uv.2), age := q.age + 1 }
    else { q with age := 90 + 1 }

/-- C1: on every animation frame, for every particle p the animator first
clears the pending move; if the age exceeds MAX_PARTICLE_AGE (90) the
particle is respawned at a random screen position with age 0; then the
field is sampled at the current position and the particle either dies with
age set to 90 (null sample, or destination off the globe) or gets the
pending move (x + u, y + v); in every case the age then increases by
exactly 1.  Stated as: the translated evolve body agrees with the
specification narrative on every particle, field, inversion test and
respawn position. -/
theorem evolve_frame_matches_spec (field : ℚ → ℚ → Option (ℚ × ℚ))
    (invertOk : ℚ → ℚ → Bool) (rx ry : ℚ) (p : Particle) :
    evolveParticle field invertOk rx ry p
      = evolveParticleSpec field invertOk rx ry p := by
  unfold evolveParticle evolveParticleSpec
  simp only [MAX_PARTICLE_AGE, gt_iff_lt]
  by_cases h90 : 90 < p.age
  · simp only [h90, if_true]
    cases hf : field rx ry with
    | none => rfl
    | some uv =>
      by_cases hin : invertOk (rx + uv.1) (ry + uv.2) = true
      · simp [hf, hin]
      · simp [hf, hin]
  · simp only [h90, if_false]
    cases hf : field p.x p.y with
    | none => rfl
    | some uv =>
      by_cases hin : invertOk (p.x + uv.1) (p.y + uv.2) = true
      · simp [hf, hin]
      · simp [hf, hin]

/-- Helper: the exact condition for the field to return the null wind
vector. -/
theorem windField_eq_none_iff
    (invert project : ℚ → ℚ → Option (ℚ × ℚ)) (velocityScale : ℚ)
    (h : GridHeader) (uData vData : List (Option ℚ)) (x y : ℚ) :
    windField invert project velocityScale h uData vData x y = none ↔
      invert x y = none ∨
      ∃ c, invert x y = some c ∧
        (interpolate h uData vData c.1 c.2 = none ∨
         ∃ w, interpolate h uData vData c.1 c.2 = some w ∧
           225 < magSq (distort project c.1 c.2 x y velocityScale w)) := by
  cases hinv : invert x y with
  | none => simp [windField, hinv]
  | some c =>
    cases hint : interpolate h uData vData c.1 c.2 with
    | none => simp [windField, hinv, hint]
    | some w =>
      obtain ⟨w1, w2⟩ := w
      by_cases hmag :
          225 < magSq (distort project c.1 c.2 x y velocityScale (w1, w2))
      · simp only [windField, hinv, hint, gt_iff_lt, hmag, if_true,
          Option.some.injEq, true_and]
        constructor
        · intro _
          exact Or.inr ⟨c, rfl, Or.inr ⟨(w1, w2), hint, hmag⟩⟩
        · intro _
          trivial
      · simp only [windField, hinv, hint, gt_iff_lt, hmag, if_false,
          Option.some.injEq]
        constructor
        · intro hcon
          exact Option.noConfusion hcon
        · rintro (hcon | ⟨c2, hc2, hrest⟩)
          · exact Option.noConfusion hcon
          · subst hc2
            rcases hrest with hcon | ⟨w3, hw3, hb⟩
            · rw [hint] at hcon
              exact Option.noConfusion hcon
            · rw [hint, Option.some.injEq] at hw3
              subst hw3
              exact absurd hb hmag

/-- Helper: the exact condition for the field to return a wind vector. -/
theorem windField_eq_some_iff
    (invert project : ℚ → ℚ → Option (ℚ × ℚ)) (velocityScale : ℚ)
    (h : GridHeader) (uData vData : List (Option ℚ)) (x y : ℚ) (d : ℚ × ℚ) :
    windField invert project velocityScale h uData vData x y = some d ↔
      ∃ c w, invert x y = some c ∧
        interpolate h uData vData c.1 c.2 = some w ∧
        d = distort project c.1 c.2 x y velocityScale w ∧
        magSq d ≤ 225 := by
  cases hinv : invert x y with
  | none => simp [windField, hinv]
  | some c =>
    cases hint : interpolate h uData vData c.1 c.2 with
    | none => simp [windField, hinv, hint]
    | some w =>
      by_cases hmag : 225 < magSq (distort project c.1 c.2 x y velocityScale w)
      · simp only [windField, hinv, hint, gt_iff_lt, hmag, if_true,
          Option.some.injEq]
        constructor
        · intro hcon
          exact Option.noConfusion hcon
        · rintro ⟨c2, w2, hc2, hw2, hd, hb⟩
          subst hc2
          rw [hint, Option.some.injEq] at hw2
          subst hw2
          subst hd
          exact absurd hmag (not_lt.mpr hb)
      · simp only [windField, hinv, hint, gt_iff_lt, hmag, if_false,
          Option.some.injEq]
        constructor
        · intro hd
          refine ⟨c, w, rfl, hint, hd.symm, ?_⟩
          rw [← hd]
          exact not_lt.mp hmag
        · rintro ⟨c2, w2, hc2, hw2, hd, hb⟩
          subst hc2
          rw [hint, Option.some.injEq] at hw2
          subst hw2
          exact hd.symm

/-- C2: the field built by createField is total over screen coordinates (a
Lean function, defined on every input) and returns the null wind vector
none = [NaN, NaN, null] exactly when the screen point does not invert to
globe coordinates, or the interpolation fails (grid indices outside the
nx-by-ny grid, or a null u or v sample — the content of
interpolate = none), or the distorted magnitude exceeds 15 (squared: 225;
a non-finite magnitude cannot arise over exact rationals); on every other
input it returns the distorted vector, whose magnitude is at most 15
(squared: at most 225). -/
theorem createField_null_iff_and_bounded
    (invert project : ℚ → ℚ → Option (ℚ × ℚ)) (velocityScale : ℚ)
    (h : GridHeader) (uData vData : List (Option ℚ)) (x y : ℚ) :
    (windField invert project velocityScale h uData vData x y = none ↔
      invert x y = none ∨
      ∃ c, invert x y = some c ∧
        (interpolate h uData vData c.1 c.2 = none ∨
         ∃ w, interpolate h uData vData c.1 c.2 = some w ∧
           225 < magSq (distort project c.1 c.2 x y velocityScale w)))
    ∧ ∀ d, windField invert project velocityScale h uData vData x y = some d ↔
        ∃ c w, invert x y = some c ∧
          interpolate h uData vData c.1 c.2 = some w ∧
          d = distort project c.1 c.2 x y velocityScale w ∧
          magSq d ≤ 225 :=
  ⟨windField_eq_none_iff invert project velocityScale h uData vData x y,
   fun d => windField_eq_some_iff invert project velocityScale h uData vData x y d⟩

/-! ## Projection-map viewer: case filtering (updateMap)

Source: updateMap in the projection-map main.js.  A case row keeps the CSV
columns the function reads.  Filing years are four-digit numerals in the
data and the slider value, where the JS string comparison used by the
source coincides with numeric comparison, so the year is modelled as ℕ.
The active status/category filters are JS Sets, modelled as lists (only
membership and emptiness are consulted). -/

structure CaseRow where
  filingYear : ℕ
  status : String
  extractedClimateIssue : Option String
  jurisdictions : String

/-- The category predicate of updateMap: lower-case the Extracted Climate
Issue text (empty when the column is missing), reject an empty text, and
otherwise ask that some active keyword occurs in it case-insensitively. -/
def categoryRowPasses (K : List String) (d : CaseRow) : Bool :=
  let issueText := jsToLower (d.extractedClimateIssue.getD "")
  if issueText.isEmpty then false
  else K.any (fun k => jsIncludes issueText (jsToLower k))

/-- The filter pipeline of updateMap: filter by filing year, then by status
when the status set is non-empty, then by category when the keyword set is
non-empty. -/
def updateMapFilteredCases (rows : List CaseRow) (selectedYear : ℕ)
    (S K : List String) : List CaseRow :=
  let f1 := rows.filter (fun d => d.filingYear ≤ selectedYear)
  let f2 := if 0 < S.length then f1.filter (fun d => S.contains d.status)
            else f1
  if 0 < K.length then f2.filter (categoryRowPasses K) else f2

/-- The per-country count of updateMap: d3.rollup groups the filtered rows
by Jurisdictions and the country gets map.get(name) with 0 as the default,
which is the number of filtered rows whose Jurisdictions equals the
name. -/
def updateMapCaseCount (rows : List CaseRow) (selectedYear : ℕ)
    (S K : List String) (countryName : String) : ℕ :=
  (updateMapFilteredCases rows selectedYear S K).countP
    (fun d => d.jurisdictions = countryName)

/-- Helper: the category predicate as a conjunction. -/
theorem categoryRowPasses_eq (K : List String) (d : CaseRow) :
    categoryRowPasses K d =
      (!(jsToLower (d.extractedClimateIssue.getD "")).isEmpty
        && K.any (fun k =>
            jsIncludes (jsToLower (d.extractedClimateIssue.getD ""))
              (jsToLower k))) := by
  unfold categoryRowPasses
  cases hE : (jsToLower (d.extractedClimateIssue.getD "")).isEmpty <;>
    simp [hE]

/-- C3: the country counts computed by updateMap come from exactly the rows
whose Filing Year is at most the slider year, whose Status belongs to the
active status set when that set is non-empty, and — when the keyword set
is non-empty — whose Extracted Climate Issue text is non-empty and
contains some active keyword case-insensitively (an empty issue text
contains no keyword); each country counts the remaining rows whose
Jurisdictions equals its name, 0 when there is no such row. -/
theorem updateMap_country_counts (rows : List CaseRow) (Y : ℕ)
    (S K : List String) (country : String) :
    updateMapCaseCount rows Y S K country =
      rows.countP (fun d =>
        decide (d.filingYear ≤ Y)
        && (S.isEmpty || S.contains d.status)
        && (K.isEmpty
            || (!(jsToLower (d.extractedClimateIssue.getD "")).isEmpty
                && K.any (fun k =>
                    jsIncludes (jsToLower (d.extractedClimateIssue.getD ""))
                      (jsToLower k))))
        && decide (d.jurisdictions = country)) := by
  unfold updateMapCaseCount updateMapFilteredCases
  cases S with
  | nil =>
    cases K with
    | nil =>
      simp only [List.length_nil, lt_irrefl, if_false, List.countP_filter,
        List.isEmpty_nil, Bool.true_or, Bool.and_true, Bool.true_and]
      congr 1
      funext d
      simp [Bool.and_comm]
    | cons k0 K0 =>
      simp only [List.length_nil, lt_irrefl, if_false, List.length_cons,
        Nat.zero_lt_succ, if_true, List.countP_filter, List.isEmpty_nil,
        List.isEmpty_cons, Bool.true_or, Bool.false_or]
      congr 1
      funext d
      rw [← categoryRowPasses_eq]
      generalize decide (d.filingYear ≤ Y) = a
      generalize categoryRowPasses (k0 :: K0) d = c
      generalize decide (d.jurisdictions = country) = b
      cases a <;> cases c <;> cases b <;> rfl
  | cons s0 S0 =>
    cases K with
    | nil =>
      simp only [List.length_cons, Nat.zero_lt_succ, if_true,
        List.length_nil, lt_irrefl, if_false, List.countP_filter,
        List.isEmpty_nil, List.isEmpty_cons, Bool.true_or, Bool.false_or,
        Bool.and_true]
      congr 1
      funext d
      cases hy : decide (d.filingYear ≤ Y) <;>
        cases hs : (s0 :: S0).contains d.status <;> simp [hy, hs, Bool.and_comm]
    | cons k0 K0 =>
      simp only [List.length_cons, Nat.zero_lt_succ, if_true,
        List.countP_filter, List.isEmpty_cons, Bool.false_or]
      congr 1
      funext d
      rw [← categoryRowPasses_eq]
      generalize decide (d.filingYear ≤ Y) = a
      generalize (s0 :: S0).contains d.status = s
      generalize categoryRowPasses (k0 :: K0) d = c
      generalize decide (d.jurisdictions = country) = b
      cases a <;> cases s <;> cases c <;> cases b <;> rfl

/-! ## Projection-map viewer: flyTo

Source: flyTo(countryName) in the projection-map main.js.  The function
opens with a guard: when the case data has not finished loading while the
cases layer is visible, it schedules setTimeout(() => flyTo(countryName),
100) and returns; otherwise it proceeds (sets the active country, looks
the country up, and animates, or logs an error when the country is
unknown). -/

/-- The observable first step of a flyTo call. -/
inductive FlyToAction where
  | scheduleRetry (delayMs : ℕ) (countryName : String)
  | flyAnimation (countryName : String)
  | countryNotFound (countryName : String)
deriving DecidableEq

/-- flyTo, up to the point where it either defers itself, animates, or
fails the country lookup. -/
def flyTo (areCasesLoaded isCasesLayerVisible : Bool)
    (countries : List String) (countryName : String) : FlyToAction :=
  if !areCasesLoaded && isCasesLayerVisible then
    .scheduleRetry 100 countryName
  else if countries.contains countryName then
    .flyAnimation countryName
  else
    .countryNotFound countryName

/-- C4 counterexample: the claim says a call to flyTo never schedules a
deferred re-invocation of itself, regardless of the cases layer and load
state; but with the cases layer visible and the data not yet loaded, flyTo
schedules exactly such a re-invocation (setTimeout of itself after
100 ms). -/
theorem flyTo_schedules_retry_at_concrete_input :
    flyTo false true ["Germany"] "Germany"
      = FlyToAction.scheduleRetry 100 "Germany" := by
  rfl

/-- C4 amended: flyTo schedules a deferred re-invocation of itself (a
100 ms setTimeout of flyTo on the same country) exactly when the cases
layer is visible and the case data has not finished loading; in every
other state it proceeds without scheduling anything. -/
theorem flyTo_retry_iff (areCasesLoaded isCasesLayerVisible : Bool)
    (countries : List String) (countryName : String) :
    (∃ delay name,
        flyTo areCasesLoaded isCasesLayerVisible countries countryName
          = FlyToAction.scheduleRetry delay name) ↔
      areCasesLoaded = false ∧ isCasesLayerVisible = true := by
  unfold flyTo
  cases areCasesLoaded <;> cases isCasesLayerVisible <;> simp
  all_goals
    intro x x1
    split <;> simp

/-! ## Projection-map viewer: raster layer data cache

Source: loadAndRenderEmissionData / loadAndRenderTemperatureData /
loadAndRenderBurnData / loadAndRenderSeaLevelData in the projection-map
main.js.  The four functions are textually identical in their cache
behaviour and differ only in the layer object and the data URL, so one
state-transition function models all four.  Each layer holds dataCache, a
plain object keyed by year, and data, the currently rendered grid.  The
fetch outcome (d3.text resolving with the body, or rejecting) is passed
explicitly; the Data type and the JSON parser are parameters. -/

/-- A year-keyed cache, newest binding first (assignment prepends; lookups
take the first binding, so assignment overwrites). -/
def cacheGet {Data : Type} (c : List (ℕ × Data)) (y : ℕ) : Option Data :=
  (c.find? (fun e => e.1 = y)).map (fun e => e.2)

/-- A raster layer's mutable fields touched by the load function. -/
structure RasterLayerData (Data : Type) where
  dataCache : List (ℕ × Data)
  data : Option Data

/-- Outcome of the d3.text fetch of the year's JSON body. -/
inductive FetchOutcome where
  | success (text : String)
  | failure

/-- loadAndRender…Data(year): use the cache when the year is present
(no fetch); otherwise fetch, replace every textual NaN by null, JSON-parse
and store under the year; a failed fetch changes neither field.  The
returned Bool records whether a network fetch was performed. -/
def loadAndRenderRasterData {Data : Type} (parse : String → Data)
    (st : RasterLayerData Data) (year : ℕ) (fetch : FetchOutcome) :
    RasterLayerData Data × Bool :=
  match cacheGet st.dataCache year with
  | some cached => ({ st with data := some cached }, false)
  | none =>
    match fetch with
    | .success text =>
      let parsed := parse (jsReplaceAll text "NaN" "null")
      ({ st with dataCache := (year, parsed) :: st.dataCache,
                 data := some parsed }, true)
    | .failure => (st, true)

/-- C5: raster data lives only in the per-year in-memory cache and the
cache only grows: a cache hit serves the cached value and performs no
network fetch; a successful fetch stores the parsed body — every textual
NaN replaced by null before parsing — under the fetched year (and renders
it); and the operation never removes or overwrites an existing cache
entry, whatever the year and fetch outcome.  (In the source the load
functions are the only writers of any dataCache; every other reference
only reads it.) -/
theorem rasterCache_hit_store_and_monotone {Data : Type}
    (parse : String → Data) (st : RasterLayerData Data) (year : ℕ)
    (fetch : FetchOutcome) :
    (∀ cached, cacheGet st.dataCache year = some cached →
      loadAndRenderRasterData parse st year fetch
        = ({ st with data := some cached }, false))
    ∧ (∀ text, cacheGet st.dataCache year = none →
        fetch = FetchOutcome.success text →
        cacheGet
          (loadAndRenderRasterData parse st year fetch).1.dataCache year
          = some (parse (jsReplaceAll text "NaN" "null")))
    ∧ (∀ y d, cacheGet st.dataCache y = some d →
        cacheGet
          (loadAndRenderRasterData parse st year fetch).1.dataCache y
          = some d) := by
  refine ⟨?_, ?_, ?_⟩
  · intro cached hc
    unfold loadAndRenderRasterData
    rw [hc]
  · intro text hc hf
    subst hf
    unfold loadAndRenderRasterData
    rw [hc]
    simp [cacheGet]
  · intro y d hy
    unfold loadAndRenderRasterData
    cases hc : cacheGet st.dataCache year with
    | some cached => exact hy
    | none =>
      cases fetch with
      | failure => exact hy
      | success text =>
        simp only [cacheGet, List.find?]
        have hne : (decide (year = y)) = false := by
          by_cases hyy : year = y
          · subst hyy
            rw [hy] at hc
            exact Option.noConfusion hc
          · simp [hyy]
        simp only [hne]
        exact hy

/-! ## Projection-map viewer: chat widget (sendPrompt)

Source: sendPrompt in the projection-map main.js.  The handler trims the
prompt input and returns without any request when the trimmed text is
empty; otherwise it builds the JSON body with the trimmed prompt and the
per-visit session id, adds a country field when activeCountryName is
truthy (and, in the else branch, mutates activeCountryName to a default —
after the body has been built), and issues a single fetch POST to the
fixed n8n webhook URL. -/

def n8nWebhookUrl : String :=
  "https://martinus-suijkerbuijk.app.n8n.cloud/webhook/climate-cases"

/-- The JSON body and target of the one POST sendPrompt can issue. -/
structure ChatRequest where
  url : String
  prompt : String
  sessionId : String
  country : Option String
deriving DecidableEq

/-- sendPrompt: the list of HTTP requests the handler issues during one
submission, and the value of activeCountryName afterwards. -/
def sendPrompt (input sessionId : String) (activeCountryName : Option String) :
    List ChatRequest × Option String :=
  let promptText := jsTrim input
  if promptText.isEmpty then ([], activeCountryName)
  else
    let req : ChatRequest :=
      { url := n8nWebhookUrl
        prompt := promptText
        sessionId := sessionId
        country :=
          if jsTruthy activeCountryName then activeCountryName else none }
    let newActive :=
      if jsTruthy activeCountryName then activeCountryName
      else some "United States of America"
    ([req], newActive)

/-- C6 counterexample: the claim says the body contains a country field
exactly when activeCountryName is non-null at submission; but when
activeCountryName is the empty string — non-null, yet falsy in JS — the
single request sendPrompt issues carries no country field. -/
theorem sendPrompt_empty_country_name_drops_field :
    (sendPrompt "hi" "session-1" (some "")).1
        = [{ url := n8nWebhookUrl, prompt := "hi", sessionId := "session-1",
             country := none }]
      ∧ (some "" : Option String) ≠ none := by
  constructor
  · decide
  · decide

/-- C6 amended: submitting with a prompt that is non-empty after trimming
issues exactly one POST, to the fixed n8n webhook URL, whose body carries
the trimmed prompt and the session id, and carries a country field exactly
when activeCountryName is truthy (non-null and non-empty) at the moment of
submission; a prompt that is empty after trimming issues no request. -/
theorem sendPrompt_requests (input sessionId : String)
    (activeCountryName : Option String) :
    (sendPrompt input sessionId activeCountryName).1
      = if (jsTrim input).isEmpty then []
        else [{ url := n8nWebhookUrl, prompt := jsTrim input,
                sessionId := sessionId,
                country := if jsTruthy activeCountryName then activeCountryName
                           else none }] := by
  unfold sendPrompt
  cases hE : (jsTrim input).isEmpty <;> simp [hE]

/-! ## Knowledge graph: year slider filter

Source: the yearSlider input handler of the knowledge-graph main.js.  A
node carries an id, a type tag (topic or case) and, on case nodes, a year;
links connect node ids (after d3.forceLink resolves them to node objects,
the handler reads their .id).  The handler keeps every topic node, the
case nodes with year at most the slider value, and the links whose two
endpoint ids both survive. -/

structure GraphNode where
  id : String
  ntype : String
  year : Option ℤ
deriving DecidableEq

structure GraphLink where
  source : String
  target : String
deriving DecidableEq

/-- The JS comparison n.year <= selectedYear: false when the node has no
year field (undefined compares false). -/
def nodeYearLE (n : GraphNode) (selectedYear : ℤ) : Bool :=
  match n.year with
  | some y => y ≤ selectedYear
  | none => false

/-- The node and link sets the year-slider handler rebuilds the graph
from. -/
def filterGraphByYear (allNodes : List GraphNode) (allLinks : List GraphLink)
    (selectedYear : ℤ) : List GraphNode × List GraphLink :=
  let topicNodes := allNodes.filter (fun n => n.ntype = "topic")
  let caseNodes := allNodes.filter
    (fun n => n.ntype = "case" && nodeYearLE n selectedYear)
  let filteredNodes := topicNodes ++ caseNodes
  let filteredNodeIds := filteredNodes.map (fun n => n.id)
  let filteredLinks := allLinks.filter
    (fun l => filteredNodeIds.contains l.source
      && filteredNodeIds.contains l.target)
  (filteredNodes, filteredLinks)

/-- C7: the year-slider handler rebuilds the graph from exactly the topic
nodes plus the case nodes whose year is at most the slider year, and from
exactly the links both of whose endpoint ids belong to that node set — so
no displayed link has a filtered-out endpoint. -/
theorem graph_year_filter_exact (allNodes : List GraphNode)
    (allLinks : List GraphLink) (Y : ℤ) :
    (∀ n, n ∈ (filterGraphByYear allNodes allLinks Y).1 ↔
      n ∈ allNodes ∧
        (n.ntype = "topic" ∨
         (n.ntype = "case" ∧ ∃ y, n.year = some y ∧ y ≤ Y)))
    ∧ (∀ l, l ∈ (filterGraphByYear allNodes allLinks Y).2 ↔
        l ∈ allLinks ∧
          (∃ n ∈ (filterGraphByYear allNodes allLinks Y).1, n.id = l.source)
          ∧ ∃ n ∈ (filterGraphByYear allNodes allLinks Y).1,
              n.id = l.target) := by
  constructor
  · intro n
    simp only [filterGraphByYear, List.mem_append, List.mem_filter]
    constructor
    · rintro (⟨hmem, ht⟩ | ⟨hmem, hc⟩)
      · exact ⟨hmem, Or.inl (by simpa using ht)⟩
      · rw [Bool.and_eq_true] at hc
        refine ⟨hmem, Or.inr ⟨by simpa using hc.1, ?_⟩⟩
        have := hc.2
        unfold nodeYearLE at this
        cases hy : n.year with
        | none => rw [hy] at this; exact Bool.noConfusion this
        | some y =>
          rw [hy] at this
          exact ⟨y, rfl, by simpa using this⟩
    · rintro ⟨hmem, ht | ⟨hc, y, hy, hle⟩⟩
      · exact Or.inl ⟨hmem, by simpa using ht⟩
      · refine Or.inr ⟨hmem, ?_⟩
        rw [Bool.and_eq_true]
        refine ⟨by simpa using hc, ?_⟩
        unfold nodeYearLE
        rw [hy]
        simpa using hle
  · intro l
    simp only [filterGraphByYear, List.mem_filter, Bool.and_eq_true,
      List.contains_eq_any_beq, List.any_eq_true, List.mem_map, beq_iff_eq]
    constructor
    · rintro ⟨hmem, ⟨⟨ids, hids, hs⟩, ⟨idt, hidt, ht⟩⟩⟩
      obtain ⟨ns, hns, hnsid⟩ := hids
      obtain ⟨nt, hnt, hntid⟩ := hidt
      exact ⟨hmem, ⟨ns, hns, by rw [hnsid, ← hs]⟩,
        ⟨nt, hnt, by rw [hntid, ← ht]⟩⟩
    · rintro ⟨hmem, ⟨ns, hns, hs⟩, ⟨nt, hnt, ht⟩⟩
      exact ⟨hmem, ⟨ns.id, ⟨ns, hns, rfl⟩, hs.symm⟩,
        ⟨nt.id, ⟨nt, hnt, rfl⟩, ht.symm⟩⟩

/-! ## Forensic dashboard: updateDashboard filters and timelines

Source: updateDashboard in the forensic-tool main.js.  The loader has
already parsed Start Year / Filing Year with parseInt and dropped NaN
rows, so the years are integers.  Jurisdictions stays a raw CSV field
(possibly missing), read through JS truthiness before the substring test.
The timelines map the filtered records to event objects keyed by year and
sort them with (a, b) => b.year - a.year, i.e. by year, most recent
first; the model keeps the sort key. -/

structure DisasterRec where
  country : String
  startYear : ℤ
  disasterType : String
deriving DecidableEq

structure CaseRec where
  jurisdictions : Option String
  filingYear : ℤ
deriving DecidableEq

/-- The disaster filter of updateDashboard: country equality and year
range, then the type filter unless All Types is chosen. -/
def filterDisasters (data : List DisasterRec) (country : String)
    (disasterType : String) (startYear endYear : ℤ) : List DisasterRec :=
  let f := data.filter (fun d =>
    d.country = country && startYear ≤ d.startYear && d.startYear ≤ endYear)
  if disasterType ≠ "All Types" then
    f.filter (fun d => d.disasterType = disasterType)
  else f

/-- The litigation filter of updateDashboard: a truthy Jurisdictions field
that contains the country as a substring, and the filing year in range. -/
def filterCases (data : List CaseRec) (country : String)
    (startYear endYear : ℤ) : List CaseRec :=
  data.filter (fun c =>
    jsTruthy c.jurisdictions
    && jsIncludes (c.jurisdictions.getD "") country
    && startYear ≤ c.filingYear && c.filingYear ≤ endYear)

/-- Year-descending comparison used on the timeline events. -/
def yearDesc (a b : ℤ) : Bool :=
  b ≤ a

/-- The disaster timeline event years, sorted most recent first. -/
def disasterEventYears (data : List DisasterRec) (country : String)
    (disasterType : String) (startYear endYear : ℤ) : List ℤ :=
  ((filterDisasters data country disasterType startYear endYear).map
    (fun d => d.startYear)).mergeSort yearDesc

/-- The litigation timeline event years, sorted most recent first. -/
def caseEventYears (data : List CaseRec) (country : String)
    (startYear endYear : ℤ) : List ℤ :=
  ((filterCases data country startYear endYear).map
    (fun c => c.filingYear)).mergeSort yearDesc

/-- C8: updateDashboard shows exactly the disaster records with the chosen
country, a start year inside the selected range and — unless All Types is
chosen — the chosen disaster type; exactly the litigation records whose
Jurisdictions contains the country as a substring (a missing or empty
field contains nothing) with the filing year in range; and both timeline
event lists are the years of those records ordered most recent first. -/
theorem updateDashboard_filters_and_order (disasterData : List DisasterRec)
    (caseData : List CaseRec) (country disasterType : String)
    (startYear endYear : ℤ) :
    (∀ d, d ∈ filterDisasters disasterData country disasterType
          startYear endYear ↔
        d ∈ disasterData ∧ d.country = country
          ∧ startYear ≤ d.startYear ∧ d.startYear ≤ endYear
          ∧ (disasterType ≠ "All Types" → d.disasterType = disasterType))
    ∧ (∀ c, c ∈ filterCases caseData country startYear endYear ↔
        c ∈ caseData
          ∧ (∃ s, c.jurisdictions = some s ∧ s ≠ ""
              ∧ country.data <:+: s.data)
          ∧ startYear ≤ c.filingYear ∧ c.filingYear ≤ endYear)
    ∧ (disasterEventYears disasterData country disasterType startYear
        endYear).Pairwise (fun a b => b ≤ a)
    ∧ (disasterEventYears disasterData country disasterType startYear
        endYear).Perm
        ((filterDisasters disasterData country disasterType startYear
          endYear).map (fun d => d.startYear))
    ∧ (caseEventYears caseData country startYear endYear).Pairwise
        (fun a b => b ≤ a)
    ∧ (caseEventYears caseData country startYear endYear).Perm
        ((filterCases caseData country startYear endYear).map
          (fun c => c.filingYear)) := by
  have hdesc_trans : ∀ a b c : ℤ, yearDesc a b = true → yearDesc b c = true →
      yearDesc a c = true := by
    intro a b c hab hbc
    simp only [yearDesc, decide_eq_true_eq] at *
    omega
  have hdesc_total : ∀ a b : ℤ, (yearDesc a b || yearDesc b a) = true := by
    intro a b
    simp only [yearDesc, Bool.or_eq_true, decide_eq_true_eq]
    omega
  refine ⟨?_, ?_, ?_, ?_, ?_, ?_⟩
  · intro d
    unfold filterDisasters
    by_cases hT : disasterType ≠ "All Types"
    · rw [if_pos hT]
      simp only [List.mem_filter, Bool.and_eq_true, decide_eq_true_eq]
      constructor
      · rintro ⟨⟨hmem, ⟨⟨hc, h1⟩, h2⟩⟩, ht⟩
        exact ⟨hmem, hc, h1, h2, fun _ => ht⟩
      · rintro ⟨hmem, hc, h1, h2, ht⟩
        exact ⟨⟨hmem, ⟨⟨hc, h1⟩, h2⟩⟩, ht hT⟩
    · rw [if_neg hT]
      simp only [List.mem_filter, Bool.and_eq_true, decide_eq_true_eq]
      constructor
      · rintro ⟨hmem, ⟨⟨hc, h1⟩, h2⟩⟩
        exact ⟨hmem, hc, h1, h2, fun hT2 => absurd hT2 hT⟩
      · rintro ⟨hmem, hc, h1, h2, _⟩
        exact ⟨hmem, ⟨⟨hc, h1⟩, h2⟩⟩
  · intro c
    unfold filterCases
    simp only [List.mem_filter, Bool.and_eq_true, decide_eq_true_eq]
    constructor
    · rintro ⟨hmem, ⟨⟨htr, hinc⟩, h1⟩, h2⟩
      cases hj : c.jurisdictions with
      | none =>
        rw [hj] at htr
        exact Bool.noConfusion htr
      | some s =>
        rw [hj] at htr
        refine ⟨hmem, ⟨s, rfl, ?_, ?_⟩, h1, h2⟩
        · intro hs
          subst hs
          rw [jsTruthy, (String.isEmpty_iff "").mpr rfl] at htr
          exact Bool.noConfusion htr
        · have hx : jsIncludes ((some s).getD "") country = true := by
            rw [← hj]
            exact hinc
          simpa [jsIncludes] using hx
    · rintro ⟨hmem, ⟨s, hj, hne, hsub⟩, h1, h2⟩
      refine ⟨hmem, ⟨⟨?_, ?_⟩, h1⟩, h2⟩
      · rw [hj]
        simp only [jsTruthy, Bool.not_eq_eq_eq_not, Bool.not_true]
        exact (Bool.not_eq_true _).mp
          (fun hE => hne ((String.isEmpty_iff s).mp hE))
      · rw [hj]
        simpa [jsIncludes] using hsub
  · exact List.sorted_mergeSort hdesc_trans hdesc_total _
      |>.imp (by simp [yearDesc])
  · exact List.mergeSort_perm _ _
  · exact List.sorted_mergeSort hdesc_trans hdesc_total _
      |>.imp (by simp [yearDesc])
  · exact List.mergeSort_perm _ _

/-! ## Projection-map viewer: raster layer toggles

Source: toggleEmissionLayer / toggleTempLayer / toggleBurnLayer /
toggleSeaLevelLayer in the projection-map main.js.  Each toggle, when its
layer is hidden, first calls the toggles of whichever other layers are
visible — those calls take the deactivation branch, which only clears that
layer's isVisible and nulls activeRasterLayerId — then flips its own flag
and sets activeRasterLayerId to its id (activation) or to null
(deactivation).  The nested calls are embedded as the …Off functions; the
lemmas toggle…Layer_off_eq prove each equals the full toggle on a state
where that layer is visible, which is the only state the source calls it
in. -/

inductive RasterId where
  | emission
  | temperature
  | burn
  | seaLevel
deriving DecidableEq

structure RasterState where
  emissionVisible : Bool
  temperatureVisible : Bool
  burnVisible : Bool
  seaLevelVisible : Bool
  activeRasterLayerId : Option RasterId
deriving DecidableEq

/-- The deactivation branch of toggleEmissionLayer. -/
def toggleEmissionOff (s : RasterState) : RasterState :=
  { s with emissionVisible := false, activeRasterLayerId := none }

/-- The deactivation branch of toggleTempLayer. -/
def toggleTempOff (s : RasterState) : RasterState :=
  { s with temperatureVisible := false, activeRasterLayerId := none }

/-- The deactivation branch of toggleBurnLayer. -/
def toggleBurnOff (s : RasterState) : RasterState :=
  { s with burnVisible := false, activeRasterLayerId := none }

/-- The deactivation branch of toggleSeaLevelLayer. -/
def toggleSeaLevelOff (s : RasterState) : RasterState :=
  { s with seaLevelVisible := false, activeRasterLayerId := none }

/-- toggleEmissionLayer: deactivate the other visible layers (burn, then
temperature, then sea level, in source order), flip the flag, set the
active id. -/
def toggleEmissionLayer (s : RasterState) : RasterState :=
  let s1 :=
    if !s.emissionVisible then
      let sA := if s.burnVisible then toggleBurnOff s else s
      let sB := if sA.temperatureVisible then toggleTempOff sA else sA
      if sB.seaLevelVisible then toggleSeaLevelOff sB else sB
    else s
  if !s1.emissionVisible then
    { s1 with emissionVisible := true,
              activeRasterLayerId := some RasterId.emission }
  else
    { s1 with emissionVisible := false, activeRasterLayerId := none }

/-- toggleTempLayer: deactivation order burn, emission, sea level. -/
def toggleTempLayer (s : RasterState) : RasterState :=
  let s1 :=
    if !s.temperatureVisible then
      let sA := if s.burnVisible then toggleBurnOff s else s
      let sB := if sA.emissionVisible then toggleEmissionOff sA else sA
      if sB.seaLevelVisible then toggleSeaLevelOff sB else sB
    else s
  if !s1.temperatureVisible then
    { s1 with temperatureVisible := true,
              activeRasterLayerId := some RasterId.temperature }
  else
    { s1 with temperatureVisible := false, activeRasterLayerId := none }

/-- toggleBurnLayer: deactivation order temperature, emission, sea
level. -/
def toggleBurnLayer (s : RasterState) : RasterState :=
  let s1 :=
    if !s.burnVisible then
      let sA := if s.temperatureVisible then toggleTempOff s else s
      let sB := if sA.emissionVisible then toggleEmissionOff sA else sA
      if sB.seaLevelVisible then toggleSeaLevelOff sB else sB
    else s
  if !s1.burnVisible then
    { s1 with burnVisible := true,
              activeRasterLayerId := some RasterId.burn }
  else
    { s1 with burnVisible := false, activeRasterLayerId := none }

/-- toggleSeaLevelLayer: deactivation order temperature, emission, burn. -/
def toggleSeaLevelLayer (s : RasterState) : RasterState :=
  let s1 :=
    if !s.seaLevelVisible then
      let sA := if s.temperatureVisible then toggleTempOff s else s
      let sB := if sA.emissionVisible then toggleEmissionOff sA else sA
      if sB.burnVisible then toggleBurnOff sB else sB
    else s
  if !s1.seaLevelVisible then
    { s1 with seaLevelVisible := true,
              activeRasterLayerId := some RasterId.seaLevel }
  else
    { s1 with seaLevelVisible := false, activeRasterLayerId := none }

/-- Helper: on a state where the emission layer is visible — the only kind
of state the other toggles call it on — toggleEmissionLayer is its
deactivation branch. -/
theorem toggleEmissionLayer_off_eq (s : RasterState)
    (h : s.emissionVisible = true) :
    toggleEmissionLayer s = toggleEmissionOff s := by
  unfold toggleEmissionLayer toggleEmissionOff
  simp [h]

/-- Helper: same for toggleTempLayer. -/
theorem toggleTempLayer_off_eq (s : RasterState)
    (h : s.temperatureVisible = true) :
    toggleTempLayer s = toggleTempOff s := by
  unfold toggleTempLayer toggleTempOff
  simp [h]

/-- Helper: same for toggleBurnLayer. -/
theorem toggleBurnLayer_off_eq (s : RasterState)
    (h : s.burnVisible = true) :
    toggleBurnLayer s = toggleBurnOff s := by
  unfold toggleBurnLayer toggleBurnOff
  simp [h]

/-- Helper: same for toggleSeaLevelLayer. -/
theorem toggleSeaLevelLayer_off_eq (s : RasterState)
    (h : s.seaLevelVisible = true) :
    toggleSeaLevelLayer s = toggleSeaLevelOff s := by
  unfold toggleSeaLevelLayer toggleSeaLevelOff
  simp [h]

/-- Apply one toggle operation. -/
def applyRasterToggle (s : RasterState) : RasterId → RasterState
  | RasterId.emission => toggleEmissionLayer s
  | RasterId.temperature => toggleTempLayer s
  | RasterId.burn => toggleBurnLayer s
  | RasterId.seaLevel => toggleSeaLevelLayer s

/-- Apply a sequence of toggle operations, first element first. -/
def applyRasterToggles (ops : List RasterId) (s : RasterState) : RasterState :=
  ops.foldl applyRasterToggle s

/-- The initial state: no raster layer visible, no active id. -/
def initialRasterState : RasterState :=
  { emissionVisible := false, temperatureVisible := false,
    burnVisible := false, seaLevelVisible := false,
    activeRasterLayerId := none }

/-- Number of visible raster layers. -/
def visibleCount (s : RasterState) : ℕ :=
  (if s.emissionVisible then 1 else 0)
    + (if s.temperatureVisible then 1 else 0)
    + (if s.burnVisible then 1 else 0)
    + (if s.seaLevelVisible then 1 else 0)

/-- The mutual-exclusion invariant of the raster layers: at most one is
visible, the active id points at the visible layer when there is one, and
is null when none is visible. -/
def rasterExclusion (s : RasterState) : Prop :=
  visibleCount s ≤ 1
  ∧ (s.emissionVisible = true →
      s.activeRasterLayerId = some RasterId.emission)
  ∧ (s.temperatureVisible = true →
      s.activeRasterLayerId = some RasterId.temperature)
  ∧ (s.burnVisible = true → s.activeRasterLayerId = some RasterId.burn)
  ∧ (s.seaLevelVisible = true →
      s.activeRasterLayerId = some RasterId.seaLevel)
  ∧ (s.emissionVisible = false → s.temperatureVisible = false →
      s.burnVisible = false → s.seaLevelVisible = false →
      s.activeRasterLayerId = none)

instance (s : RasterState) : Decidable (rasterExclusion s) := by
  unfold rasterExclusion
  infer_instance

/-- Helper: each single toggle preserves the invariant. -/
theorem applyRasterToggle_preserves (s : RasterState) (op : RasterId)
    (hs : rasterExclusion s) :
    rasterExclusion (applyRasterToggle s op) := by
  obtain ⟨e, t, b, l, a⟩ := s
  revert hs
  cases a with
  | none =>
    cases e <;> cases t <;> cases b <;> cases l <;> cases op <;> decide
  | some i =>
    cases i <;> cases e <;> cases t <;> cases b <;> cases l <;>
      cases op <;> decide

/-- Helper: the invariant is preserved by any toggle sequence. -/
theorem applyRasterToggles_preserves (ops : List RasterId) (s : RasterState)
    (hs : rasterExclusion s) :
    rasterExclusion (applyRasterToggles ops s) := by
  induction ops generalizing s with
  | nil => exact hs
  | cons op rest ih =>
    exact ih (applyRasterToggle s op) (applyRasterToggle_preserves s op hs)

/-- C9: after any sequence of the four raster toggle operations, starting
from the initial state, at most one of the emission, temperature, burn and
sea-level layers is visible, activeRasterLayerId is the id of the visible
layer when one exists and is null when none is visible. -/
theorem raster_toggles_mutual_exclusion (ops : List RasterId) :
    rasterExclusion (applyRasterToggles ops initialRasterState) :=
  applyRasterToggles_preserves ops initialRasterState (by decide)

/-! ## Projection-map viewer: cases and disaster layer toggles

Source: toggleCasesLayer and toggleDisasterLayer in the projection-map
main.js.  Each flips its visibility flag; on first activation it fetches
the CSV, and the promise's catch handler reverts the visibility flag (the
disaster handler also hides the dot layer and clears the button's active
class).  The state after the whole operation — flip plus settled promise —
is modelled; the CSV fetch outcome is a parameter. -/

/-- Outcome of a d3.csv fetch: the parsed rows, or a rejection. -/
inductive CsvFetch (α : Type) where
  | success (rows : List α)
  | failure

/-- The fields of the viewer state toggleCasesLayer touches. -/
structure CasesLayerState where
  isCasesLayerVisible : Bool
  areCasesLoaded : Bool
  allCasesData : List CaseRow

/-- toggleCasesLayer, up to the settling of the d3.csv promise on first
activation: flip; when turning on and not yet loaded, a successful fetch
stores the rows and marks them loaded, a failed fetch reverts the
visibility flag (and only that). -/
def toggleCasesLayer (s : CasesLayerState) (fetch : CsvFetch CaseRow) :
    CasesLayerState :=
  let s1 := { s with isCasesLayerVisible := !s.isCasesLayerVisible }
  if s1.isCasesLayerVisible then
    if s1.areCasesLoaded then s1
    else
      match fetch with
      | CsvFetch.success rows =>
        { s1 with allCasesData := rows, areCasesLoaded := true }
      | CsvFetch.failure => { s1 with isCasesLayerVisible := false }
  else s1

/-- The allowed disaster types the loader keeps. -/
def allowedDisasterTypes : List String :=
  ["Drought", "Flood", "Extreme temperature", "Storm", "Wildfire",
   "Mass movement (wet)", "Mass movement (dry)",
   "Glacial lake outburst flood"]

/-- The fields of the viewer state toggleDisasterLayer touches:
visibility flag, loaded flag, the CSS visibility of the dot layer, the
toggle button's active class, and the loaded rows. -/
structure DisasterLayerState where
  isDisasterLayerVisible : Bool
  areDisastersLoaded : Bool
  layerShown : Bool
  buttonActive : Bool
  allDisasterData : List DisasterRec

/-- toggleDisasterLayer, up to the settling of the d3.csv promise on first
activation: flip the flag and the button class; when turning on, show the
dot layer, and if not yet loaded, a successful fetch stores the rows
restricted to the allowed disaster types and marks them loaded, while a
failed fetch reverts the flag, hides the dot layer and clears the button
class; turning off hides the dot layer. -/
def toggleDisasterLayer (s : DisasterLayerState)
    (fetch : CsvFetch DisasterRec) : DisasterLayerState :=
  let s1 := { s with isDisasterLayerVisible := !s.isDisasterLayerVisible,
                     buttonActive := !s.isDisasterLayerVisible }
  if s1.isDisasterLayerVisible then
    let s2 := { s1 with layerShown := true }
    if s2.areDisastersLoaded then s2
    else
      match fetch with
      | CsvFetch.success rows =>
        { s2 with
          allDisasterData := rows.filter
            (fun d => allowedDisasterTypes.contains d.disasterType),
          areDisastersLoaded := true }
      | CsvFetch.failure =>
        { s2 with isDisasterLayerVisible := false, layerShown := false,
                  buttonActive := false }
  else { s1 with layerShown := false }

/-- C10: a failed first load leaves no layer marked visible.  If the first
toggle-on of the cases layer fails to fetch the case CSV, the visibility
flag is reverted to false and areCasesLoaded stays false; if the first
toggle-on of the disaster layer fails to fetch its CSV, the visibility
flag is reverted to false and the dot layer is hidden again (the button's
active class is cleared too). -/
theorem layer_toggles_atomic_on_failure (cs : CasesLayerState)
    (ds : DisasterLayerState)
    (hcv : cs.isCasesLayerVisible = false) (hcl : cs.areCasesLoaded = false)
    (hdv : ds.isDisasterLayerVisible = false)
    (hdl : ds.areDisastersLoaded = false) :
    ((toggleCasesLayer cs CsvFetch.failure).isCasesLayerVisible = false
      ∧ (toggleCasesLayer cs CsvFetch.failure).areCasesLoaded = false)
    ∧ (toggleDisasterLayer ds CsvFetch.failure).isDisasterLayerVisible
        = false
    ∧ (toggleDisasterLayer ds CsvFetch.failure).layerShown = false
    ∧ (toggleDisasterLayer ds CsvFetch.failure).buttonActive = false := by
  unfold toggleCasesLayer toggleDisasterLayer
  simp [hcv, hcl, hdv, hdl]

/-- C10 witness: the theorem at the empty initial states. -/
theorem layer_toggles_atomic_on_failure_witness :
    ((toggleCasesLayer
        { isCasesLayerVisible := false, areCasesLoaded := false,
          allCasesData := [] } CsvFetch.failure).isCasesLayerVisible = false
      ∧ (toggleCasesLayer
          { isCasesLayerVisible := false, areCasesLoaded := false,
            allCasesData := [] } CsvFetch.failure).areCasesLoaded = false)
    ∧ (toggleDisasterLayer
        { isDisasterLayerVisible := false, areDisastersLoaded := false,
          layerShown := false, buttonActive := false,
          allDisasterData := [] }
        CsvFetch.failure).isDisasterLayerVisible = false
    ∧ (toggleDisasterLayer
        { isDisasterLayerVisible := false, areDisastersLoaded := false,
          layerShown := false, buttonActive := false,
          allDisasterData := [] } CsvFetch.failure).layerShown = false
    ∧ (toggleDisasterLayer
        { isDisasterLayerVisible := false, areDisastersLoaded := false,
          layerShown := false, buttonActive := false,
          allDisasterData := [] } CsvFetch.failure).buttonActive = false :=
  layer_toggles_atomic_on_failure
    { isCasesLayerVisible := false, areCasesLoaded := false,
      allCasesData := [] }
    { isDisasterLayerVisible := false, areDisastersLoaded := false,
      layerShown := false, buttonActive := false, allDisasterData := [] }
    rfl rfl rfl rfl
